import Mathlib

/-!
Verification of the similarity / plagiarism-detection engine of the
TeachMate backend (`app/backend/features/assignment_grade.py`).

Python strings are modelled as `List Char`; Python floats as `ℚ`
(the similarity arithmetic is exact at every value the claims touch);
Python exceptions as `Except Unit`.  `check_plagiarism` is embedded as a
pure function over the results of its external effects: the database
fetch (`fetch`), the per-file download (`download`), and the two external
source lookups (`lookupWeb`, `lookupAcad`), each of which may raise.
-/

/-- Python `s.lower()`, modelled by `Char.toLower` on every character.
`Char.toLower` case-maps only the ASCII range `A`-`Z`, on which it agrees
exactly with CPython's `str.lower()`; every concrete string appearing in
this development is ASCII, so the restriction is immaterial to the
claims. -/
def pyLower (s : List Char) : List Char :=
  s.map Char.toLower

/-- Worker for `pySplit`; `acc` holds the current word reversed. -/
def pySplitAux : List Char → List Char → List (List Char)
  | [], acc => if acc = [] then [] else [acc.reverse]
  | c :: cs, acc =>
    if c.isWhitespace then
      if acc = [] then pySplitAux cs [] else acc.reverse :: pySplitAux cs []
    else pySplitAux cs (c :: acc)

/-- Python `s.split()` with no argument: split on runs of whitespace,
dropping empty words. -/
def pySplit (s : List Char) : List (List Char) :=
  pySplitAux s []

/-- `set(text.lower().split())` — the token set used by the similarity
function. -/
def tokens (s : List Char) : Finset (List Char) :=
  (pySplit (pyLower s)).toFinset

/-- Embedding of `calculate_text_similarity` (assignment_grade.py,
lines 695-712): Jaccard similarity of the two token sets, `0.0` when the
union is empty. -/
def calculate_text_similarity (text1 text2 : List Char) : ℚ :=
  let words1 := tokens text1
  let words2 := tokens text2
  let inter := words1 ∩ words2
  let uni := words1 ∪ words2
  if uni.card = 0 then 0 else (inter.card : ℚ) / (uni.card : ℚ)

/-- Python `round(x, 2)` (the tie direction of Python's banker rounding is
irrelevant at every value the claims touch): round half-up at the second
decimal, written with the executable `Rat.floor`. -/
def pyRound2 (x : ℚ) : ℚ :=
  ((Rat.floor (x * 100 + 1/2) : ℤ) : ℚ) / 100

/-- Python `max(list)` on a list of numbers; never called on `[]` by the
embedded code (the `0` there is an arbitrary total-function default). -/
def pyMax : List ℚ → ℚ
  | [] => 0
  | x :: xs => xs.foldl max x

/-- `states.py` `RubricGrade`. -/
structure RubricGrade where
  total_score : ℚ
  reason : List Char
deriving DecidableEq

/-- `states.py` `SourceMatch`. -/
structure SourceMatch where
  url : List Char
  title : Option (List Char)
  similarity : ℚ
  snippet : Option (List Char)
deriving DecidableEq

/-- `states.py` `Submissions` (field names kept verbatim, including the
`plagerism_score` spelling). -/
structure Submissions where
  submission_id : List Char
  file_url : Option (List Char)
  file_content : Option (List Char)
  plagerism_score : Option ℚ
  total_score : Option RubricGrade
  web_sources : Option (List SourceMatch)
  academic_sources : Option (List SourceMatch)
deriving DecidableEq

/-- One row of the `submissions` table as selected by `check_plagiarism`
(`select('id, file_url')`). -/
structure SubmissionRow where
  id : List Char
  file_url : Option (List Char)
deriving DecidableEq

/-- Abstraction of Python's `repr` of a float, used in f-string
interpolation of scores into grade reasons (the exact digit rendering is
a float-formatting detail; only its placement inside the message
matters to the claims). -/
def pyFloatRepr (q : ℚ) : List Char :=
  (toString q).toList

def overrideMsgA : String := "Grade set to 0 due to high plagiarism score ("

def overrideMsgB : String := "% similarity, threshold: "

def overrideMsgC : String := "%). Original grade was "

def overrideMsgC2 : String := "%)."

def overrideMsgD : String := "."

def naString : String := "N/A"

/-- The reason attached to a zeroed grade:
`f"Grade set to 0 due to high plagiarism score ({score}% similarity,
threshold: {threshold}%). Original grade was {original}."` where
`original` is the prior numeric grade or `'N/A'`. -/
def overrideReason (score thr : ℚ) (orig : Option ℚ) : List Char :=
  overrideMsgA.toList ++ pyFloatRepr score ++ overrideMsgB.toList ++ pyFloatRepr thr
    ++ overrideMsgC.toList
    ++ (match orig with
        | some g => pyFloatRepr g
        | none => naString.toList)
    ++ overrideMsgD.toList

/-- The shorter reason used by the defensive re-check inside
`check_plagiarism` (which never fires; see the claim proofs). -/
def overrideReasonNoOrig (score thr : ℚ) : List Char :=
  overrideMsgA.toList ++ pyFloatRepr score ++ overrideMsgB.toList ++ pyFloatRepr thr
    ++ overrideMsgC2.toList

/-- Result of a caught external call: an exception is downgraded to `[]`. -/
def exceptList {α : Type} : Except Unit (List α) → List α
  | .ok l => l
  | .error _ => []

/-- Best pairwise similarity of `content` against every other downloaded
submission (the inner `for other_sub_id, other_content ...` loop of
`check_plagiarism`): skip the submission itself and empty contents,
fold `max` starting from `0.0`. -/
def bestInternal (allContents : List (List Char × List Char))
    (selfId : List Char) (content : List Char) : ℚ :=
  allContents.foldl
    (fun m p =>
      if p.1 = selfId then m
      else if p.2 = [] then m
      else max m (calculate_text_similarity content p.2)) 0

/-- The result built for a submission whose `file_content` is falsy
(absent or empty): plagiarism `0.0`, grade untouched, no source lists. -/
def emptyContentResult (sub : Submissions) : Submissions :=
  ⟨sub.submission_id, sub.file_url, sub.file_content, some 0, sub.total_score,
    none, none⟩

/-- The signal merge of `check_plagiarism` (lines 584-621): the rounded
internal percentage `round(max_similarity * 100, 2)`, then, for each
non-empty external source list in turn (web first, then academic), bump
the percentage when that list's maximal similarity exceeds it. -/
def mergedScore (allContents : List (List Char × List Char)) (selfId c : List Char)
    (web acad : List SourceMatch) : ℚ :=
  let pct0 := pyRound2 (bestInternal allContents selfId c * 100)
  let pct1 :=
    if web ≠ [] then
      if pct0 < pyMax (web.map SourceMatch.similarity) then
        pyMax (web.map SourceMatch.similarity)
      else pct0
    else pct0
  if acad ≠ [] then
    if pct1 < pyMax (acad.map SourceMatch.similarity) then
      pyMax (acad.map SourceMatch.similarity)
    else pct1
  else pct1

/-- The threshold policy (lines 631-658): above `40.0` the grade is
replaced by a zero grade carrying the override reason (the original
numeric grade, or `'N/A'` when ungraded, is quoted in the message);
otherwise the existing grade object is kept. -/
def gradeAfterThreshold (pct2 : ℚ) (orig : Option RubricGrade) : Option RubricGrade :=
  if 40 < pct2 then
    some (RubricGrade.mk 0 (overrideReason pct2 40 (orig.map RubricGrade.total_score)))
  else orig

/-- The defensive re-check after building the updated submission
(lines 661-673): if the stored grade should have been zeroed but was not,
force it to zero with the shorter reason.  (The claim proofs show this
branch never fires.) -/
def verifyFix (pct2 : ℚ) (upd : Submissions) : Submissions :=
  match upd.total_score with
  | none => upd
  | some g =>
    if 40 < pct2 ∧ g.total_score ≠ 0 then
      ⟨upd.submission_id, upd.file_url, upd.file_content, upd.plagerism_score,
        some (RubricGrade.mk 0 (overrideReasonNoOrig pct2 40)),
        upd.web_sources, upd.academic_sources⟩
    else upd

/-- One iteration of the main loop of `check_plagiarism` (lines 557-676):
internal best-match percentage, the two guarded external lookups, the
signal merge, the threshold-triggered grade override, and the defensive
re-check of the stored grade. -/
def processOne (allContents : List (List Char × List Char))
    (lookupWeb lookupAcad : List Char → Except Unit (List SourceMatch))
    (sub : Submissions) : Submissions :=
  match sub.file_content with
  | none => emptyContentResult sub
  | some c =>
    if c = [] then emptyContentResult sub
    else
      let web := exceptList (lookupWeb c)
      let acad := exceptList (lookupAcad c)
      let pct2 := mergedScore allContents sub.submission_id c web acad
      verifyFix pct2
        ⟨sub.submission_id, sub.file_url, sub.file_content, some pct2,
          gradeAfterThreshold pct2 sub.total_score,
          if web = [] then none else some web,
          if acad = [] then none else some acad⟩

/-- The download pass: for each fetched row with a `file_url`, attempt the
download; failures are caught per row and the row is skipped.  The result
models the Python dict `all_submission_contents` in insertion order. -/
def downloadAll (rows : List SubmissionRow)
    (download : List Char → Except Unit (List Char)) :
    List (List Char × List Char) :=
  rows.foldl
    (fun acc row =>
      match row.file_url with
      | none => acc
      | some url =>
        match download url with
        | .ok text => acc ++ [(row.id, text)]
        | .error _ => acc) []

/-- The body of `check_plagiarism`'s top-level `try` (the database fetch
`fetch` is the modelled raise point; every other exception in the body is
caught by an inner handler).  `Except.error` propagates to the top-level
handler in `check_plagiarism`. -/
def check_plagiarism_run (subs : List Submissions)
    (fetch : Except Unit (List SubmissionRow))
    (download : List Char → Except Unit (List Char))
    (lookupWeb lookupAcad : List Char → Except Unit (List SourceMatch)) :
    Except Unit (List Submissions) :=
  match fetch with
  | .error e => .error e
  | .ok rows =>
    if rows = [] then .ok subs
    else
      let allContents := downloadAll rows download
      if allContents.length < 2 then
        .ok (subs.map (fun sub =>
          ⟨sub.submission_id, sub.file_url, sub.file_content, some 0,
            sub.total_score, none, none⟩))
      else
        .ok (subs.map (processOne allContents lookupWeb lookupAcad))

/-- Embedding of `check_plagiarism` (lines 489-693): run the body; the
top-level `except` returns `state['submission_ids']` unchanged. -/
def check_plagiarism (subs : List Submissions)
    (fetch : Except Unit (List SubmissionRow))
    (download : List Char → Except Unit (List Char))
    (lookupWeb lookupAcad : List Char → Except Unit (List SourceMatch)) :
    List Submissions :=
  match check_plagiarism_run subs fetch download lookupWeb lookupAcad with
  | .ok r => r
  | .error _ => subs

/-- One organic result returned by the SerpAPI search. -/
structure SerpResult where
  link : List Char
  title : List Char
  snippet : List Char

/-- Processing of one SerpAPI organic result inside `check_web_sources`
(lines 744-768): score `text` against `(title + " " + snippet).lower()`,
keep the result only when the raw similarity exceeds `0.1`. -/
def serpOne (text : List Char) (r : SerpResult) : Option SourceMatch :=
  if r.link = [] then none
  else
    let combined := pyLower (r.title ++ ' ' :: r.snippet)
    let sim := calculate_text_similarity (pyLower text) combined
    if (1 : ℚ)/10 < sim then
      some ⟨r.link, some r.title, pyRound2 (sim * 100),
        some (if r.snippet = [] then r.title.take 200 else r.snippet.take 200)⟩
    else none

/-- The SerpAPI branch of `check_web_sources`: the append loop over
`data["organic_results"][:max_results]`. -/
def check_web_sources_serpapi (text : List Char) (results : List SerpResult)
    (maxResults : Nat) : List SourceMatch :=
  (results.take maxResults).filterMap (serpOne text)

/-- One anchor scraped from the DuckDuckGo result page. -/
structure DDGResult where
  href : List Char
  title : List Char

/-- Processing of one DuckDuckGo anchor inside `check_web_sources`
(lines 795-814): score `text` against the anchor title, keep the result
only when the raw similarity exceeds `0.1`. -/
def ddgOne (text : List Char) (r : DDGResult) : Option SourceMatch :=
  if r.href = [] ∨ r.title = [] then none
  else
    let sim := calculate_text_similarity (pyLower text) (pyLower r.title)
    if (1 : ℚ)/10 < sim then
      some ⟨r.href, some r.title, pyRound2 (sim * 100), some (r.title.take 200)⟩
    else none

/-- The DuckDuckGo branch of `check_web_sources`: anchors are limited to
`max_results` when scraped and the final list is truncated again. -/
def check_web_sources_ddg (text : List Char) (results : List DDGResult)
    (maxResults : Nat) : List SourceMatch :=
  ((results.take maxResults).filterMap (ddgOne text)).take maxResults

/-- One document returned by the Qdrant similarity search. -/
structure QdrantDoc where
  page_content : List Char
  source : List Char
  title : List Char

/-- Processing of one Qdrant document inside `check_academic_sources`
(lines 870-888): score `text` against `doc.page_content.lower()`, keep
the result only when the raw similarity exceeds `0.1`. -/
def academicOne (text : List Char) (d : QdrantDoc) : Option SourceMatch :=
  let sim := calculate_text_similarity (pyLower text) (pyLower d.page_content)
  if (1 : ℚ)/10 < sim then
    some ⟨d.source, some d.title, pyRound2 (sim * 100), some (d.page_content.take 200)⟩
  else none

/-- The result-processing loop of `check_academic_sources` over the `k =
max_results` documents returned by the vector search. -/
def check_academic_sources_docs (text : List Char) (docs : List QdrantDoc) :
    List SourceMatch :=
  docs.filterMap (academicOne text)

/-- CPython-level call of `calculate_text_similarity` with possibly-absent
arguments: `None.lower()` raises `AttributeError`, modelled as
`Except.error`. -/
def calculate_text_similarity_dyn (t1 t2 : Option (List Char)) :
    Except Unit ℚ :=
  match t1, t2 with
  | some a, some b => .ok (calculate_text_similarity a b)
  | _, _ => .error ()

/-- `s` contains `seg` as a contiguous segment. -/
def containsSeg (s seg : List Char) : Prop :=
  ∃ a b, s = a ++ seg ++ b

/-- The identity fields of a submission, untouched by the evaluator. -/
def idFields (s : Submissions) : List Char × Option (List Char) × Option (List Char) :=
  (s.submission_id, s.file_url, s.file_content)

/-- The degenerate-branch result constructor (lines 542-552): plagiarism
`0.0`, grade kept, no source lists (identical to `emptyContentResult`,
repeated here because the source spells it out separately). -/
def degenerateResult (sub : Submissions) : Submissions :=
  ⟨sub.submission_id, sub.file_url, sub.file_content, some 0, sub.total_score,
    none, none⟩

/-- The rendering of the original grade quoted in an override reason:
the prior numeric grade, or `'N/A'` when there was none. -/
def origRepr : Option ℚ → List Char
  | some g => pyFloatRepr g
  | none => naString.toList

/-- The claim-side reading of "maximum similarity among the returned
sources (0 if the list is empty)": Python `max(sims, default=0)`. -/
def maxSimDefault0 (l : List SourceMatch) : ℚ :=
  pyMax (l.map SourceMatch.similarity)

/-- The lowercase ASCII letter `'a' + (d % 26)`.  CPython's `str.lower()`
leaves `a`-`z` unchanged, so tokens built from these characters are
genuinely lowercase-stable in the real program, not merely under the
ASCII case map of `pyLower`. -/
def chTok (d : Nat) : Char :=
  Char.ofNat (97 + d % 26)

/-- The n-th three-letter token, the base-26 digits of `n` over `a`-`z`:
17576 distinct, non-whitespace, lowercase-stable ASCII words for the
boundary-case construction behind the external-source cutoff claim. -/
def wordN (n : Nat) : List Char :=
  [chTok (n / 676), chTok (n / 26), chTok n]

/-- `k` distinct three-letter words. -/
def wordsN (k : Nat) : List (List Char) :=
  (List.range k).map wordN

/-- Words joined by single spaces (no trailing separator). -/
def joinW : List (List Char) → List Char
  | [] => []
  | [w] => w
  | w :: v :: ws => w ++ ' ' :: joinW (v :: ws)

/-- A submission text of 2009 distinct three-letter ASCII tokens. -/
def cexText : List Char :=
  joinW (wordsN 2009)

/-- A web-result title holding the first 201 of those tokens. -/
def cexTitle : List Char :=
  joinW (wordsN 201)

/-- The SerpAPI organic result built from that title, with empty
snippet. -/
def cexSerpResult : SerpResult :=
  ⟨['u'], cexTitle, []⟩

/-! ### Character-level helper lemmas -/

theorem Char_eq_of_toNat_eq {c d : Char} (h : c.toNat = d.toNat) : c = d :=
  Char.ext (UInt32.eq_of_toBitVec_eq (BitVec.eq_of_toNat_eq h))

theorem char_isWhitespace_false {c : Char} (h32 : c.toNat ≠ 32) (h9 : c.toNat ≠ 9)
    (h13 : c.toNat ≠ 13) (h10 : c.toNat ≠ 10) : c.isWhitespace = false := by
  simp only [Char.isWhitespace, Bool.or_eq_false_iff, decide_eq_false_iff_not]
  refine ⟨⟨⟨?_, ?_⟩, ?_⟩, ?_⟩ <;> intro h <;>
    first
    | exact h32 (by rw [h]; rfl)
    | exact h9 (by rw [h]; rfl)
    | exact h13 (by rw [h]; rfl)
    | exact h10 (by rw [h]; rfl)

theorem char_toNat_ofNat_valid {m : Nat} (h : m.isValidChar) :
    (Char.ofNat m).toNat = m := by
  rw [Char.ofNat, dif_pos h]
  rfl

theorem char_toLower_of_not_upper {c : Char} (h : ¬(65 ≤ c.toNat ∧ c.toNat ≤ 90)) :
    c.toLower = c := by
  simp only [Char.toLower, ge_iff_le]
  exact if_neg h

theorem char_toLower_of_upper {c : Char} (h : 65 ≤ c.toNat ∧ c.toNat ≤ 90) :
    c.toLower = Char.ofNat (c.toNat + 32) := by
  simp only [Char.toLower, ge_iff_le]
  exact if_pos h

theorem char_isWhitespace_toLower (c : Char) :
    c.toLower.isWhitespace = c.isWhitespace := by
  by_cases h : 65 ≤ c.toNat ∧ c.toNat ≤ 90
  · have hval : Nat.isValidChar (c.toNat + 32) := Or.inl (by omega)
    have hlow : c.toLower.toNat = c.toNat + 32 := by
      rw [char_toLower_of_upper h]
      exact char_toNat_ofNat_valid hval
    rw [char_isWhitespace_false (c := c.toLower) (by omega) (by omega) (by omega) (by omega),
      char_isWhitespace_false (by omega) (by omega) (by omega) (by omega)]
  · rw [char_toLower_of_not_upper h]

/-! ### Tokenizer helper lemmas -/

theorem pySplitAux_ws {c : Char} (h : c.isWhitespace = true) (cs acc : List Char) :
    pySplitAux (c :: cs) acc =
      if acc = [] then pySplitAux cs [] else acc.reverse :: pySplitAux cs [] := by
  simp [pySplitAux, h]

theorem pySplitAux_nonws {c : Char} (h : c.isWhitespace = false) (cs acc : List Char) :
    pySplitAux (c :: cs) acc = pySplitAux cs (c :: acc) := by
  simp [pySplitAux, h]

theorem pySplitAux_word (w : List Char) (hw : ∀ c ∈ w, c.isWhitespace = false)
    (s acc : List Char) :
    pySplitAux (w ++ s) acc = pySplitAux s (w.reverse ++ acc) := by
  induction w generalizing acc with
  | nil => simp
  | cons c w ih =>
    rw [List.cons_append, pySplitAux_nonws (hw c (by simp)) _ acc,
      ih (fun d hd => hw d (by simp [hd])) (c :: acc)]
    simp

theorem pySplitAux_ne_nil (s acc : List Char)
    (h : (∃ c ∈ s, c.isWhitespace = false) ∨ acc ≠ []) :
    pySplitAux s acc ≠ [] := by
  induction s generalizing acc with
  | nil =>
    rcases h with ⟨c, hc, _⟩ | h
    · exact absurd hc (by simp)
    · simp [pySplitAux, h]
  | cons c cs ih =>
    by_cases hws : c.isWhitespace = true
    · rw [pySplitAux_ws hws]
      by_cases hacc : acc = []
      · rw [if_pos hacc]
        apply ih
        left
        rcases h with ⟨d, hd, hdws⟩ | hne
        · rcases List.mem_cons.mp hd with rfl | hd
          · exact absurd hws (by simp [hdws])
          · exact ⟨d, hd, hdws⟩
        · exact absurd hacc hne
      · rw [if_neg hacc]
        simp
    · rw [pySplitAux_nonws (by simpa using hws)]
      exact ih (c :: acc) (Or.inr (by simp))

theorem tokens_nil : tokens [] = ∅ := rfl

theorem tokens_nonempty_of_nonws (x : List Char)
    (h : ∃ c ∈ x, c.isWhitespace = false) : tokens x ≠ ∅ := by
  rcases h with ⟨c, hc, hcws⟩
  have hmem : c.toLower ∈ pyLower x := List.mem_map_of_mem Char.toLower hc
  have hlow : c.toLower.isWhitespace = false := by
    rw [char_isWhitespace_toLower]; exact hcws
  have hne : pySplit (pyLower x) ≠ [] :=
    pySplitAux_ne_nil _ [] (Or.inl ⟨c.toLower, hmem, hlow⟩)
  intro hempty
  exact hne ((List.toFinset_eq_empty_iff _).mp hempty)

theorem ratFloor_eq_intFloor (q : ℚ) : (Rat.floor q : ℤ) = ⌊q⌋ := by
  rw [Rat.floor_def', Rat.floor_def]

theorem pyRound2_eq_round (x : ℚ) : pyRound2 x = ((round (x * 100) : ℤ) : ℚ) / 100 := by
  unfold pyRound2
  rw [ratFloor_eq_intFloor, round_eq]

theorem calculate_self (x : List Char) (h : tokens x ≠ ∅) :
    calculate_text_similarity x x = 1 := by
  have hcard : (tokens x).card ≠ 0 := by
    simpa [Finset.card_eq_zero] using h
  simp only [calculate_text_similarity, Finset.inter_self, Finset.union_self]
  rw [if_neg hcard, div_self (Nat.cast_ne_zero.mpr hcard)]

/-! ### C6 and C7: properties of the pairwise similarity function -/

/-- C6 (amended): `similarity(x, x) == 1.0` for every `x` that contains at
least one non-whitespace character (equivalently, that produces at least
one token).  The claim's "non-empty" precondition is not enough: a
whitespace-only `x` is non-empty yet tokenizes to the empty set, and the
function then returns `0.0` by its empty-union rule. -/
theorem C6_self_similarity (x : List Char) (h : ∃ c ∈ x, c.isWhitespace = false) :
    calculate_text_similarity x x = 1 :=
  calculate_self x (tokens_nonempty_of_nonws x h)

/-- C6 counterexample: `" "` is a non-empty string, yet
`calculate_text_similarity(" ", " ")` is `0.0`, not `1.0` — the original
claim fails on whitespace-only strings. -/
theorem C6_self_similarity_counterexample :
    ([' '] : List Char) ≠ [] ∧ calculate_text_similarity [' '] [' '] ≠ 1 := by
  refine ⟨by simp, ?_⟩
  decide

/-- Witness for C6: the amended theorem applied at `"a"`. -/
theorem C6_self_similarity_witness : calculate_text_similarity ['a'] ['a'] = 1 :=
  C6_self_similarity ['a'] ⟨'a', by simp, by decide⟩

/-- C7 (amended): the similarity function is total over its typed domain
(every pair of strings): calling it through the CPython-level wrapper on
two present strings returns a value and never raises, the result is `0.0`
whenever the union of the two token sets is empty (no division by zero),
and `similarity("", x) == 0.0` for every string `x`.  The claim's further
assertion that an absent (`None`) argument is also handled is dropped:
`None.lower()` raises in CPython (see the counterexample). -/
theorem C7_similarity_total (x y : List Char) :
    calculate_text_similarity_dyn (some x) (some y)
        = Except.ok (calculate_text_similarity x y)
    ∧ (tokens x ∪ tokens y = ∅ → calculate_text_similarity x y = 0)
    ∧ calculate_text_similarity [] x = 0 := by
  refine ⟨rfl, ?_, ?_⟩
  · intro h
    simp [calculate_text_similarity, h]
  · simp only [calculate_text_similarity, tokens_nil, Finset.empty_inter,
      Finset.empty_union, Finset.card_empty, Nat.cast_zero, zero_div]
    split <;> rfl

/-- C7 counterexample (for the dropped `None` clause): the CPython-level
call with an absent first argument raises (`None.lower()` has no such
attribute) instead of returning a value. -/
theorem C7_similarity_total_counterexample :
    calculate_text_similarity_dyn none (some ['a']) = Except.error () := rfl

/-- Witness for C7: the empty-union clause applied at `x = y = ""`. -/
theorem C7_similarity_total_witness :
    tokens ([] : List Char) ∪ tokens ([] : List Char) = ∅ ∧
      calculate_text_similarity [] [] = 0 :=
  ⟨rfl, (C7_similarity_total [] []).2.1 rfl⟩

/-! ### Evaluator helper lemmas -/

theorem mem_zip_map {α β : Type} (f : α → β) (l : List α) (p : α × β)
    (hp : p ∈ l.zip (l.map f)) : p.2 = f p.1 := by
  have hzip : l.zip (l.map f) = l.map (fun a => (a, f a)) := by
    have h := List.zip_map' id f l
    simpa using h
  rw [hzip] at hp
  rcases List.mem_map.mp hp with ⟨a, _, rfl⟩
  rfl

theorem verifyFix_of_grade (pct2 : ℚ) (idv : List Char)
    (u co : Option (List Char)) (ws as : Option (List SourceMatch))
    (orig : Option RubricGrade) :
    verifyFix pct2
        ⟨idv, u, co, some pct2, gradeAfterThreshold pct2 orig, ws, as⟩ =
      ⟨idv, u, co, some pct2, gradeAfterThreshold pct2 orig, ws, as⟩ := by
  unfold verifyFix gradeAfterThreshold
  by_cases h40 : 40 < pct2
  · simp [h40]
  · simp only [if_neg h40]
    cases orig with
    | none => rfl
    | some g => simp [h40]

theorem processOne_empty_content (allContents : List (List Char × List Char))
    (lw la : List Char → Except Unit (List SourceMatch)) (sub : Submissions)
    (hc : sub.file_content = none ∨ sub.file_content = some []) :
    processOne allContents lw la sub = emptyContentResult sub := by
  unfold processOne
  rcases hc with hc | hc
  · rw [hc]
  · rw [hc]
    rfl

theorem processOne_main (allContents : List (List Char × List Char))
    (lw la : List Char → Except Unit (List SourceMatch)) (sub : Submissions)
    (c : List Char) (hc : sub.file_content = some c) (hne : c ≠ []) :
    processOne allContents lw la sub =
      ⟨sub.submission_id, sub.file_url, sub.file_content,
        some (mergedScore allContents sub.submission_id c
          (exceptList (lw c)) (exceptList (la c))),
        gradeAfterThreshold
          (mergedScore allContents sub.submission_id c
            (exceptList (lw c)) (exceptList (la c))) sub.total_score,
        if exceptList (lw c) = [] then none else some (exceptList (lw c)),
        if exceptList (la c) = [] then none else some (exceptList (la c))⟩ := by
  unfold processOne
  rw [hc]
  simp only [if_neg hne]
  exact verifyFix_of_grade _ _ _ _ _ _ _

theorem idFields_processOne (allContents : List (List Char × List Char))
    (lw la : List Char → Except Unit (List SourceMatch)) (sub : Submissions) :
    idFields (processOne allContents lw la sub) = idFields sub := by
  cases hc : sub.file_content with
  | none => rw [processOne_empty_content _ _ _ _ (Or.inl hc)]; rfl
  | some c =>
    by_cases hne : c = []
    · rw [processOne_empty_content _ _ _ _ (Or.inr (hne ▸ hc))]; rfl
    · rw [processOne_main _ _ _ _ c hc hne]; rfl

theorem check_plagiarism_ok (subs : List Submissions) (rows : List SubmissionRow)
    (download : List Char → Except Unit (List Char))
    (lw la : List Char → Except Unit (List SourceMatch)) :
    check_plagiarism subs (Except.ok rows) download lw la =
      if rows = [] then subs
      else if (downloadAll rows download).length < 2 then
        subs.map degenerateResult
      else subs.map (processOne (downloadAll rows download) lw la) := by
  by_cases hr : rows = []
  · simp [check_plagiarism, check_plagiarism_run, hr]
  · by_cases hlen : (downloadAll rows download).length < 2
    · simp only [check_plagiarism, check_plagiarism_run, if_neg hr, if_pos hlen]
      rfl
    · simp only [check_plagiarism, check_plagiarism_run, if_neg hr, if_pos hlen,
        if_neg hlen]

/-! ### C8, C10, C4, C5: frame, error handling, empty content, isolation -/

/-- C8 (confirmed): the evaluator returns exactly one result per input
submission, in input order, and every returned submission keeps the
identity fields (`submission_id`, `file_url`, `file_content`) of the
corresponding input — stated as equality of the `idFields` images, which
forces equal length, equal order, and per-index identity preservation. -/
theorem C8_one_result_per_input (subs : List Submissions)
    (fetch : Except Unit (List SubmissionRow))
    (download : List Char → Except Unit (List Char))
    (lw la : List Char → Except Unit (List SourceMatch)) :
    (check_plagiarism subs fetch download lw la).map idFields = subs.map idFields := by
  cases fetch with
  | error e => rfl
  | ok rows =>
    rw [check_plagiarism_ok]
    by_cases hr : rows = []
    · rw [if_pos hr]
    · rw [if_neg hr]
      by_cases hlen : (downloadAll rows download).length < 2
      · rw [if_pos hlen, List.map_map]
        rfl
      · rw [if_neg hlen, List.map_map]
        exact List.map_congr_left fun a _ => idFields_processOne _ _ _ a

/-- C10 (confirmed): when the body of `check_plagiarism` raises (the
modelled raise point is the database fetch; every other exception in the
body is absorbed by an inner handler), the top-level `except` returns the
input submission list unchanged — no partially updated scores, grades or
source lists are surfaced. -/
theorem C10_error_returns_input (subs : List Submissions)
    (download : List Char → Except Unit (List Char))
    (lw la : List Char → Except Unit (List SourceMatch)) :
    check_plagiarism subs (Except.error ()) download lw la = subs := rfl

/-- C4 (confirmed): a submission whose `file_content` is absent or empty
gets `plagerism_score = 0.0` and keeps its existing grade, whatever the
other submissions contain — in both the degenerate (< 2 downloaded
contents) branch and the main loop. -/
theorem C4_no_penalty_for_empty (subs : List Submissions)
    (rows : List SubmissionRow) (download : List Char → Except Unit (List Char))
    (lw la : List Char → Except Unit (List SourceMatch))
    (hrows : rows ≠ []) (p : Submissions × Submissions)
    (hp : p ∈ subs.zip (check_plagiarism subs (Except.ok rows) download lw la))
    (hc : p.1.file_content = none ∨ p.1.file_content = some []) :
    p.2.plagerism_score = some 0 ∧ p.2.total_score = p.1.total_score := by
  rw [check_plagiarism_ok, if_neg hrows] at hp
  by_cases hlen : (downloadAll rows download).length < 2
  · rw [if_pos hlen] at hp
    rw [mem_zip_map _ subs p hp]
    exact ⟨rfl, rfl⟩
  · rw [if_neg hlen] at hp
    rw [mem_zip_map _ subs p hp, processOne_empty_content _ _ _ _ hc]
    exact ⟨rfl, rfl⟩

/-- Witness for C4 at a concrete input: one graded submission with absent
content; the evaluator keeps the grade `7` and scores plagiarism `0.0`. -/
theorem C4_no_penalty_for_empty_witness :
    (([⟨['x'], none⟩] : List SubmissionRow) ≠ [])
    ∧ ((⟨⟨['e'], none, none, none, some ⟨7, ['r']⟩, none, none⟩,
          ⟨['e'], none, none, some 0, some ⟨7, ['r']⟩, none, none⟩⟩ :
            Submissions × Submissions)
        ∈ ([⟨['e'], none, none, none, some ⟨7, ['r']⟩, none, none⟩] :
              List Submissions).zip
            (check_plagiarism [⟨['e'], none, none, none, some ⟨7, ['r']⟩, none, none⟩]
              (Except.ok [⟨['x'], none⟩]) (fun _ => Except.error ())
              (fun _ => Except.ok []) (fun _ => Except.ok [])))
    ∧ ((⟨['e'], none, none, some 0, some ⟨7, ['r']⟩, none, none⟩ :
          Submissions).plagerism_score = some 0
        ∧ (⟨['e'], none, none, some 0, some ⟨7, ['r']⟩, none, none⟩ :
            Submissions).total_score
          = (⟨['e'], none, none, none, some ⟨7, ['r']⟩, none, none⟩ :
              Submissions).total_score) :=
  ⟨by simp, by decide,
    C4_no_penalty_for_empty
      [⟨['e'], none, none, none, some ⟨7, ['r']⟩, none, none⟩]
      [⟨['x'], none⟩] (fun _ => Except.error ())
      (fun _ => Except.ok []) (fun _ => Except.ok [])
      (by simp)
      ⟨⟨['e'], none, none, none, some ⟨7, ['r']⟩, none, none⟩,
        ⟨['e'], none, none, some 0, some ⟨7, ['r']⟩, none, none⟩⟩
      (by decide) (Or.inl rfl)⟩

/-- C5 (confirmed): an exception from the web lookup is caught locally and
is equivalent to the lookup having returned an empty list — the academic
lookup still runs and its results still contribute, and the internal
score is untouched (first conjunct); symmetrically for the academic
lookup (second conjunct); and on the main path the evaluator is a
per-submission `map`, so no submission's lookup failure aborts the
evaluation of the others (third conjunct). -/
theorem C5_lookup_failure_isolated (allContents : List (List Char × List Char))
    (lw la : List Char → Except Unit (List SourceMatch)) (sub : Submissions)
    (c : List Char) (hc : sub.file_content = some c)
    (subs : List Submissions) (rows : List SubmissionRow)
    (download : List Char → Except Unit (List Char))
    (hrows : rows ≠ []) (hlen : ¬(downloadAll rows download).length < 2) :
    (lw c = Except.error () →
      processOne allContents lw la sub
        = processOne allContents (fun _ => Except.ok []) la sub)
    ∧ (la c = Except.error () →
      processOne allContents lw la sub
        = processOne allContents lw (fun _ => Except.ok []) sub)
    ∧ check_plagiarism subs (Except.ok rows) download lw la
        = subs.map (processOne (downloadAll rows download) lw la) := by
  refine ⟨?_, ?_, ?_⟩
  · intro h
    by_cases hne : c = []
    · rw [processOne_empty_content _ _ _ _ (Or.inr (hne ▸ hc)),
        processOne_empty_content _ _ _ _ (Or.inr (hne ▸ hc))]
    · rw [processOne_main _ _ _ _ c hc hne, processOne_main _ _ _ _ c hc hne, h]
      rfl
  · intro h
    by_cases hne : c = []
    · rw [processOne_empty_content _ _ _ _ (Or.inr (hne ▸ hc)),
        processOne_empty_content _ _ _ _ (Or.inr (hne ▸ hc))]
    · rw [processOne_main _ _ _ _ c hc hne, processOne_main _ _ _ _ c hc hne, h]
      rfl
  · rw [check_plagiarism_ok, if_neg hrows, if_neg hlen]

/-- Witness for C5 at a concrete input: both lookups raise; each failure
is equivalent to that lookup returning no sources, and the evaluator is
the per-submission map over a two-content download set. -/
theorem C5_lookup_failure_isolated_witness :
    (processOne [] (fun _ => Except.error ()) (fun _ => Except.error ())
        ⟨['s'], none, some ['a'], none, none, none, none⟩
      = processOne [] (fun _ => Except.ok []) (fun _ => Except.error ())
        ⟨['s'], none, some ['a'], none, none, none, none⟩)
    ∧ (processOne [] (fun _ => Except.error ()) (fun _ => Except.error ())
        ⟨['s'], none, some ['a'], none, none, none, none⟩
      = processOne [] (fun _ => Except.error ()) (fun _ => Except.ok [])
        ⟨['s'], none, some ['a'], none, none, none, none⟩)
    ∧ check_plagiarism [] (Except.ok [⟨['x'], some ['u']⟩, ⟨['y'], some ['u']⟩])
        (fun _ => Except.ok ['a']) (fun _ => Except.error ()) (fun _ => Except.error ())
      = ([] : List Submissions).map
          (processOne
            (downloadAll [⟨['x'], some ['u']⟩, ⟨['y'], some ['u']⟩]
              (fun _ => Except.ok ['a']))
            (fun _ => Except.error ()) (fun _ => Except.error ())) := by
  have h := C5_lookup_failure_isolated [] (fun _ => Except.error ())
    (fun _ => Except.error ()) ⟨['s'], none, some ['a'], none, none, none, none⟩
    ['a'] rfl [] [⟨['x'], some ['u']⟩, ⟨['y'], some ['u']⟩]
    (fun _ => Except.ok ['a']) (by simp) (by decide)
  exact ⟨h.1 rfl, h.2.1 rfl, h.2.2⟩

theorem overrideReason_eq (score thr : ℚ) (orig : Option ℚ) :
    overrideReason score thr orig =
      overrideMsgA.toList ++ pyFloatRepr score ++ overrideMsgB.toList
        ++ pyFloatRepr thr ++ overrideMsgC.toList ++ origRepr orig
        ++ overrideMsgD.toList := by
  cases orig <;> rfl

theorem overrideReason_contains (score thr : ℚ) (orig : Option ℚ) :
    containsSeg (overrideReason score thr orig) overrideMsgA.toList
    ∧ containsSeg (overrideReason score thr orig) (pyFloatRepr score)
    ∧ containsSeg (overrideReason score thr orig) (pyFloatRepr thr)
    ∧ containsSeg (overrideReason score thr orig) (origRepr orig) := by
  rw [overrideReason_eq]
  refine ⟨⟨[], pyFloatRepr score ++ overrideMsgB.toList ++ pyFloatRepr thr
        ++ overrideMsgC.toList ++ origRepr orig ++ overrideMsgD.toList, ?_⟩,
      ⟨overrideMsgA.toList, overrideMsgB.toList ++ pyFloatRepr thr
        ++ overrideMsgC.toList ++ origRepr orig ++ overrideMsgD.toList, ?_⟩,
      ⟨overrideMsgA.toList ++ pyFloatRepr score ++ overrideMsgB.toList,
        overrideMsgC.toList ++ origRepr orig ++ overrideMsgD.toList, ?_⟩,
      ⟨overrideMsgA.toList ++ pyFloatRepr score ++ overrideMsgB.toList
        ++ pyFloatRepr thr ++ overrideMsgC.toList, overrideMsgD.toList, ?_⟩⟩ <;>
    simp [List.append_assoc]

/-- C1 (confirmed): for every submission the evaluator processes, when its
computed plagiarism score exceeds the threshold `40.0` its final grade is
`0.0` and the grade reason states the override and quotes the score, the
threshold, and the original grade (or `'N/A'` when none existed); when
the score does not exceed the threshold, the stored grade object — score
and reason — is left unchanged. -/
theorem C1_threshold_override (subs : List Submissions)
    (rows : List SubmissionRow) (download : List Char → Except Unit (List Char))
    (lw la : List Char → Except Unit (List SourceMatch))
    (hrows : rows ≠ []) (p : Submissions × Submissions)
    (hp : p ∈ subs.zip (check_plagiarism subs (Except.ok rows) download lw la))
    (q : ℚ) (hq : p.2.plagerism_score = some q) :
    (40 < q →
      ∃ g, p.2.total_score = some g ∧ g.total_score = 0
        ∧ containsSeg g.reason overrideMsgA.toList
        ∧ containsSeg g.reason (pyFloatRepr q)
        ∧ containsSeg g.reason (pyFloatRepr 40)
        ∧ containsSeg g.reason (origRepr (p.1.total_score.map RubricGrade.total_score)))
    ∧ (¬40 < q → p.2.total_score = p.1.total_score) := by
  rw [check_plagiarism_ok, if_neg hrows] at hp
  by_cases hlen : (downloadAll rows download).length < 2
  · rw [if_pos hlen] at hp
    have h2 := mem_zip_map _ subs p hp
    rw [h2] at hq ⊢
    have hq0 : (0 : ℚ) = q := Option.some.inj hq
    constructor
    · intro h40
      rw [← hq0] at h40
      norm_num at h40
    · intro _
      rfl
  · rw [if_neg hlen] at hp
    have h2 := mem_zip_map _ subs p hp
    rw [h2] at hq ⊢
    rcases hcon : p.1.file_content with _ | c
    · rw [processOne_empty_content _ _ _ _ (Or.inl hcon)] at hq ⊢
      have hq0 : (0 : ℚ) = q := Option.some.inj hq
      constructor
      · intro h40
        rw [← hq0] at h40
        norm_num at h40
      · intro _
        rfl
    · by_cases hne : c = []
      · rw [processOne_empty_content _ _ _ _ (Or.inr (hne ▸ hcon))] at hq ⊢
        have hq0 : (0 : ℚ) = q := Option.some.inj hq
        constructor
        · intro h40
          rw [← hq0] at h40
          norm_num at h40
        · intro _
          rfl
      · rw [processOne_main _ _ _ _ c hcon hne] at hq ⊢
        have hq2 : mergedScore (downloadAll rows download) p.1.submission_id c
            (exceptList (lw c)) (exceptList (la c)) = q := Option.some.inj hq
        constructor
        · intro h40
          refine ⟨⟨0, overrideReason q 40 (p.1.total_score.map RubricGrade.total_score)⟩,
            ?_, rfl, ?_, ?_, ?_, ?_⟩
          · show gradeAfterThreshold _ _ = _
            rw [hq2]
            unfold gradeAfterThreshold
            rw [if_pos h40]
          · exact (overrideReason_contains q 40 _).1
          · exact (overrideReason_contains q 40 _).2.1
          · exact (overrideReason_contains q 40 _).2.2.1
          · exact (overrideReason_contains q 40 _).2.2.2
        · intro h40
          show gradeAfterThreshold _ _ = _
          rw [hq2]
          unfold gradeAfterThreshold
          rw [if_neg h40]

theorem mergedScore_witness_val :
    mergedScore [(['x'], ['a']), (['y'], ['a'])] ['s'] ['a'] [] [] = 100 := by
  simp only [mergedScore]
  norm_num
  rw [show bestInternal [(['x'], ['a']), (['y'], ['a'])] ['s'] ['a'] = 1 from ?_]
  · rw [pyRound2_eq_round]
    norm_num
  · simp only [bestInternal, List.foldl]
    rw [if_neg (by decide), if_neg (by decide), if_neg (by decide), if_neg (by decide),
      calculate_self ['a'] (by decide)]
    norm_num

theorem processOne_witness_score :
    (processOne
        (downloadAll [⟨['x'], some ['u']⟩, ⟨['y'], some ['u']⟩] (fun _ => Except.ok ['a']))
        (fun _ => Except.ok []) (fun _ => Except.ok [])
        ⟨['s'], none, some ['a'], none, some ⟨7, ['r']⟩, none, none⟩).plagerism_score
      = some 100 := by
  rw [processOne_main _ _ _ _ ['a'] rfl (by decide)]
  show some (mergedScore _ _ _ _ _) = some 100
  congr 1
  exact mergedScore_witness_val

/-- Witness for C1 at a concrete input: two identical peer texts push the
plagiarism score to `100`, above the threshold, and the grade `7` is
overridden to `0` with the full explanatory reason. -/
theorem C1_threshold_override_witness :
    (([⟨['x'], some ['u']⟩, ⟨['y'], some ['u']⟩] : List SubmissionRow) ≠ [])
    ∧ ((⟨⟨['s'], none, some ['a'], none, some ⟨7, ['r']⟩, none, none⟩,
          processOne
            (downloadAll [⟨['x'], some ['u']⟩, ⟨['y'], some ['u']⟩] (fun _ => Except.ok ['a']))
            (fun _ => Except.ok []) (fun _ => Except.ok [])
            ⟨['s'], none, some ['a'], none, some ⟨7, ['r']⟩, none, none⟩⟩ :
            Submissions × Submissions)
        ∈ ([⟨['s'], none, some ['a'], none, some ⟨7, ['r']⟩, none, none⟩] :
              List Submissions).zip
            (check_plagiarism [⟨['s'], none, some ['a'], none, some ⟨7, ['r']⟩, none, none⟩]
              (Except.ok [⟨['x'], some ['u']⟩, ⟨['y'], some ['u']⟩])
              (fun _ => Except.ok ['a']) (fun _ => Except.ok []) (fun _ => Except.ok [])))
    ∧ ((processOne
          (downloadAll [⟨['x'], some ['u']⟩, ⟨['y'], some ['u']⟩] (fun _ => Except.ok ['a']))
          (fun _ => Except.ok []) (fun _ => Except.ok [])
          ⟨['s'], none, some ['a'], none, some ⟨7, ['r']⟩, none, none⟩).plagerism_score
        = some 100)
    ∧ ((40 < (100 : ℚ) →
          ∃ g, (processOne
              (downloadAll [⟨['x'], some ['u']⟩, ⟨['y'], some ['u']⟩] (fun _ => Except.ok ['a']))
              (fun _ => Except.ok []) (fun _ => Except.ok [])
              ⟨['s'], none, some ['a'], none, some ⟨7, ['r']⟩, none, none⟩).total_score
                = some g
            ∧ g.total_score = 0
            ∧ containsSeg g.reason overrideMsgA.toList
            ∧ containsSeg g.reason (pyFloatRepr 100)
            ∧ containsSeg g.reason (pyFloatRepr 40)
            ∧ containsSeg g.reason
                (origRepr ((some (⟨7, ['r']⟩ : RubricGrade)).map RubricGrade.total_score)))
        ∧ (¬40 < (100 : ℚ) →
          (processOne
              (downloadAll [⟨['x'], some ['u']⟩, ⟨['y'], some ['u']⟩] (fun _ => Except.ok ['a']))
              (fun _ => Except.ok []) (fun _ => Except.ok [])
              ⟨['s'], none, some ['a'], none, some ⟨7, ['r']⟩, none, none⟩).total_score
            = (some (⟨7, ['r']⟩ : RubricGrade)))) := by
  have hmem :
      ((⟨⟨['s'], none, some ['a'], none, some ⟨7, ['r']⟩, none, none⟩,
          processOne
            (downloadAll [⟨['x'], some ['u']⟩, ⟨['y'], some ['u']⟩] (fun _ => Except.ok ['a']))
            (fun _ => Except.ok []) (fun _ => Except.ok [])
            ⟨['s'], none, some ['a'], none, some ⟨7, ['r']⟩, none, none⟩⟩ :
            Submissions × Submissions)
        ∈ ([⟨['s'], none, some ['a'], none, some ⟨7, ['r']⟩, none, none⟩] :
              List Submissions).zip
            (check_plagiarism [⟨['s'], none, some ['a'], none, some ⟨7, ['r']⟩, none, none⟩]
              (Except.ok [⟨['x'], some ['u']⟩, ⟨['y'], some ['u']⟩])
              (fun _ => Except.ok ['a']) (fun _ => Except.ok []) (fun _ => Except.ok []))) := by
    rw [check_plagiarism_ok, if_neg (by simp), if_neg (by decide)]
    exact List.mem_singleton.mpr rfl
  exact ⟨by simp, hmem, processOne_witness_score,
    C1_threshold_override _ _ _ _ _ (by simp) _ hmem 100 processOne_witness_score⟩

/-! ### C3: the degenerate branch -/

/-- C3 (amended): when fewer than 2 submission contents were successfully
downloaded (the code counts downloaded entries, empty text included, not
submissions with non-empty text), the evaluator skips the pairwise
comparison AND the external web/academic lookups: every submission gets
`plagerism_score = 0.0`, keeps its grade, and gets no source lists. -/
theorem C3_degenerate_skips_all (subs : List Submissions)
    (rows : List SubmissionRow) (download : List Char → Except Unit (List Char))
    (lw la : List Char → Except Unit (List SourceMatch))
    (hrows : rows ≠ []) (hlen : (downloadAll rows download).length < 2) :
    check_plagiarism subs (Except.ok rows) download lw la
      = subs.map degenerateResult := by
  rw [check_plagiarism_ok, if_neg hrows, if_pos hlen]

theorem sim_singleton_distinct :
    calculate_text_similarity ['a'] ['b'] = 0 := by
  simp only [calculate_text_similarity]
  rw [if_neg (by decide), show ((tokens ['a'] ∩ tokens ['b']).card) = 0 from by decide,
    Nat.cast_zero, zero_div]

theorem mergedScore_web_only :
    mergedScore [(['x'], ['b'])] ['s'] ['a'] [⟨['w'], none, 50, none⟩] [] = 50 := by
  have hbest : bestInternal [(['x'], ['b'])] ['s'] ['a'] = 0 := by
    simp only [bestInternal, List.foldl]
    rw [if_neg (by decide), if_neg (by decide), sim_singleton_distinct]
    norm_num
  simp only [mergedScore, hbest]
  norm_num
  rw [pyRound2_eq_round]
  norm_num [pyMax]

/-- C3 counterexample: one downloaded content only, a web lookup that
would return a 50%-similarity source, an academic lookup returning
nothing.  The evaluator's actual output (first conjunct) scores the
submission `0.0` with no source lists — the lookups were never invoked —
even though the web lookup would have returned a high-similarity source
(second conjunct), and running the per-submission main path on the same
inputs would have attached that source and scored `50` (third conjunct).
This refutes the claim that the external lookups still run in the
degenerate case. -/
theorem C3_degenerate_skips_all_counterexample :
    (check_plagiarism [⟨['s'], none, some ['a'], none, none, none, none⟩]
        (Except.ok [⟨['x'], some ['u']⟩]) (fun _ => Except.ok ['b'])
        (fun _ => Except.ok [⟨['w'], none, 50, none⟩]) (fun _ => Except.ok [])
      = [⟨['s'], none, some ['a'], some 0, none, none, none⟩])
    ∧ ((fun _ => Except.ok [⟨['w'], none, 50, none⟩] :
          List Char → Except Unit (List SourceMatch)) ['a']
        = Except.ok [⟨['w'], none, 50, none⟩])
    ∧ ((processOne (downloadAll [⟨['x'], some ['u']⟩] (fun _ => Except.ok ['b']))
          (fun _ => Except.ok [⟨['w'], none, 50, none⟩]) (fun _ => Except.ok [])
          ⟨['s'], none, some ['a'], none, none, none, none⟩).web_sources
        = some [⟨['w'], none, 50, none⟩]
      ∧ (processOne (downloadAll [⟨['x'], some ['u']⟩] (fun _ => Except.ok ['b']))
          (fun _ => Except.ok [⟨['w'], none, 50, none⟩]) (fun _ => Except.ok [])
          ⟨['s'], none, some ['a'], none, none, none, none⟩).plagerism_score
        = some 50) := by
  refine ⟨?_, rfl, ?_, ?_⟩
  · rw [check_plagiarism_ok, if_neg (by simp), if_pos (by decide)]
    rfl
  · rw [processOne_main _ _ _ _ ['a'] rfl (by decide)]
    rfl
  · rw [processOne_main _ _ _ _ ['a'] rfl (by decide)]
    show some (mergedScore _ _ _ _ _) = some 50
    congr 1
    exact mergedScore_web_only

/-- Witness for C3: a single fetched row whose download fails leaves the
content map empty; the evaluator returns the degenerate result for the
one input submission. -/
theorem C3_degenerate_skips_all_witness :
    (([⟨['x'], none⟩] : List SubmissionRow) ≠ [])
    ∧ (downloadAll [⟨['x'], none⟩] (fun _ => Except.error ())).length < 2
    ∧ check_plagiarism [⟨['s'], none, some ['a'], none, none, none, none⟩]
        (Except.ok [⟨['x'], none⟩]) (fun _ => Except.error ())
        (fun _ => Except.ok []) (fun _ => Except.ok [])
      = [⟨['s'], none, some ['a'], none, none, none, none⟩].map degenerateResult :=
  ⟨by simp, by decide,
    C3_degenerate_skips_all _ _ _ _ _ (by simp) (by decide)⟩

/-! ### C2: the signal-merge formula -/

theorem pyRound2_mono : Monotone pyRound2 := by
  intro a b h
  rw [pyRound2_eq_round, pyRound2_eq_round]
  have hf : round (a * 100) ≤ round (b * 100) := by
    rw [round_eq, round_eq]
    exact Int.floor_mono (by nlinarith)
  have : ((round (a * 100) : ℤ) : ℚ) ≤ ((round (b * 100) : ℤ) : ℚ) := by
    exact_mod_cast hf
  nlinarith

theorem pyRound2_zero : pyRound2 0 = 0 := by
  rw [pyRound2_eq_round]
  norm_num

theorem pyRound2_nonneg {x : ℚ} (h : 0 ≤ x) : 0 ≤ pyRound2 x := by
  have := pyRound2_mono h
  rwa [pyRound2_zero] at this

theorem foldl_max_step_ge (selfId c : List Char)
    (l : List (List Char × List Char)) :
    ∀ m : ℚ, m ≤ l.foldl
      (fun m p =>
        if p.1 = selfId then m
        else if p.2 = [] then m
        else max m (calculate_text_similarity c p.2)) m := by
  induction l with
  | nil => intro m; simp
  | cons p t ih =>
    intro m
    simp only [List.foldl]
    refine le_trans ?_ (ih _)
    split
    · exact le_refl m
    · split
      · exact le_refl m
      · exact le_max_left _ _

theorem bestInternal_nonneg (allContents : List (List Char × List Char))
    (selfId c : List Char) : 0 ≤ bestInternal allContents selfId c :=
  foldl_max_step_ge selfId c allContents 0

theorem pyMax_mem (l : List ℚ) (h : l ≠ []) : pyMax l ∈ l := by
  match l with
  | x :: xs =>
    show xs.foldl max x ∈ x :: xs
    clear h
    induction xs generalizing x with
    | nil => simp [List.foldl]
    | cons y ys ih =>
      simp only [List.foldl]
      have hm := ih (max x y)
      rcases List.mem_cons.mp hm with hm | hm
      · rcases max_choice x y with he | he <;> rw [he] at hm <;> rw [he] <;> simp [hm]
      · exact List.mem_cons_of_mem _ (List.mem_cons_of_mem _ hm)

theorem pyMax_fixed (l : List SourceMatch) (h : l ≠ [])
    (hl : ∀ s ∈ l, pyRound2 s.similarity = s.similarity) :
    pyRound2 (pyMax (l.map SourceMatch.similarity))
      = pyMax (l.map SourceMatch.similarity) := by
  have hmem : pyMax (l.map SourceMatch.similarity) ∈ l.map SourceMatch.similarity :=
    pyMax_mem _ (by simpa using h)
  rcases List.mem_map.mp hmem with ⟨s, hs, heq⟩
  rw [← heq]
  exact hl s hs

theorem ite_lt_eq_max (r w : ℚ) : (if r < w then w else r) = max r w := by
  rcases le_or_lt w r with h | h
  · rw [if_neg (not_lt.mpr h), max_eq_left h]
  · rw [if_pos h, max_eq_right h.le]

theorem max_zero_absorb (r x : ℚ) (hr : 0 ≤ r) : max r (max x 0) = max r x := by
  rw [max_comm x 0, ← max_assoc, max_eq_left hr]

theorem mergedScore_eq_round_max (allContents : List (List Char × List Char))
    (selfId c : List Char) (web acad : List SourceMatch)
    (hw : ∀ s ∈ web, pyRound2 s.similarity = s.similarity)
    (ha : ∀ s ∈ acad, pyRound2 s.similarity = s.similarity) :
    mergedScore allContents selfId c web acad
      = pyRound2 (max (bestInternal allContents selfId c * 100)
          (max (maxSimDefault0 web) (maxSimDefault0 acad))) := by
  have hr0 : 0 ≤ pyRound2 (bestInternal allContents selfId c * 100) :=
    pyRound2_nonneg (mul_nonneg (bestInternal_nonneg _ _ _) (by norm_num))
  rw [pyRound2_mono.map_max, pyRound2_mono.map_max]
  simp only [mergedScore, maxSimDefault0]
  by_cases hwe : web = []
  · by_cases hae : acad = []
    · simp only [hwe, hae, ne_eq, not_true_eq_false, if_false, List.map_nil]
      rw [show pyMax ([] : List ℚ) = 0 from rfl, pyRound2_zero, max_self,
        max_eq_left hr0]
    · simp only [hwe, ne_eq, not_true_eq_false, if_false, List.map_nil,
        hae, not_false_eq_true, if_true, ite_lt_eq_max]
      rw [show pyMax ([] : List ℚ) = 0 from rfl, pyRound2_zero,
        pyMax_fixed acad hae ha,
        max_comm (0 : ℚ) (pyMax (acad.map SourceMatch.similarity))]
      exact (max_zero_absorb _ _ hr0).symm
  · by_cases hae : acad = []
    · simp only [hwe, ne_eq, not_false_eq_true, if_true, hae, not_true_eq_false,
        if_false, List.map_nil, ite_lt_eq_max]
      rw [show pyMax ([] : List ℚ) = 0 from rfl, pyRound2_zero,
        pyMax_fixed web hwe hw]
      exact (max_zero_absorb _ _ hr0).symm
    · simp only [hwe, hae, ne_eq, not_false_eq_true, if_true, ite_lt_eq_max]
      rw [pyMax_fixed web hwe hw, pyMax_fixed acad hae ha]
      exact max_assoc _ _ _

/-- C2 (confirmed): on the main path (non-empty content), the stored
plagiarism score is the maximum of the three signals — the best pairwise
Jaccard score against the other downloaded submissions (self excluded)
converted to a 0-100 percentage, the best web-source similarity (0 when
the list is empty), and the best academic-source similarity (0 when the
list is empty) — rounded to two decimal places.  The hypotheses record
that the lookup results carry similarities already rounded to two
decimals, which is exactly what `check_web_sources` and
`check_academic_sources` produce (`sourceMatches_round_fixed`). -/
theorem C2_score_formula (allContents : List (List Char × List Char))
    (lw la : List Char → Except Unit (List SourceMatch)) (sub : Submissions)
    (c : List Char) (hc : sub.file_content = some c) (hne : c ≠ [])
    (hw : ∀ s ∈ exceptList (lw c), pyRound2 s.similarity = s.similarity)
    (ha : ∀ s ∈ exceptList (la c), pyRound2 s.similarity = s.similarity) :
    (processOne allContents lw la sub).plagerism_score
      = some (pyRound2 (max (bestInternal allContents sub.submission_id c * 100)
          (max (maxSimDefault0 (exceptList (lw c)))
            (maxSimDefault0 (exceptList (la c)))))) := by
  rw [processOne_main _ _ _ _ c hc hne]
  show some _ = some _
  rw [mergedScore_eq_round_max _ _ _ _ _ hw ha]

/-- Witness for C2 at a concrete input: one peer with identical text, a
web source at 50, no academic sources; the score is the rounded maximum
`100`. -/
theorem C2_score_formula_witness :
    (processOne [(['x'], ['a']), (['y'], ['a'])]
        (fun _ => Except.ok [⟨['w'], none, 50, none⟩]) (fun _ => Except.ok [])
        ⟨['s'], none, some ['a'], none, none, none, none⟩).plagerism_score
      = some (pyRound2 (max (bestInternal [(['x'], ['a']), (['y'], ['a'])] ['s'] ['a'] * 100)
          (max (maxSimDefault0 (exceptList
              ((fun _ => Except.ok [⟨['w'], none, 50, none⟩] :
                List Char → Except Unit (List SourceMatch)) ['a'])))
            (maxSimDefault0 (exceptList
              ((fun _ => Except.ok [] :
                List Char → Except Unit (List SourceMatch)) ['a'])))))) :=
  C2_score_formula [(['x'], ['a']), (['y'], ['a'])]
    (fun _ => Except.ok [⟨['w'], none, 50, none⟩]) (fun _ => Except.ok [])
    ⟨['s'], none, some ['a'], none, none, none, none⟩ ['a'] rfl (by decide)
    (by
      intro s hs
      simp only [exceptList, List.mem_singleton] at hs
      rw [hs]
      show pyRound2 50 = 50
      rw [pyRound2_eq_round]
      norm_num)
    (by intro s hs; simp [exceptList] at hs)

theorem chTok_toNat (d : Nat) : (chTok d).toNat = 97 + d % 26 := by
  have hv : Nat.isValidChar (97 + d % 26) := by
    left
    have : d % 26 < 26 := Nat.mod_lt _ (by norm_num)
    omega
  exact char_toNat_ofNat_valid hv

theorem chTok_not_ws (d : Nat) : (chTok d).isWhitespace = false := by
  have h := chTok_toNat d
  exact char_isWhitespace_false (by omega) (by omega) (by omega) (by omega)

theorem chTok_toLower (d : Nat) : (chTok d).toLower = chTok d := by
  have h := chTok_toNat d
  exact char_toLower_of_not_upper (by omega)

theorem wordN_inj {a b : Nat} (ha : a < 17576) (hb : b < 17576)
    (h : wordN a = wordN b) : a = b := by
  simp only [wordN, List.cons.injEq, and_true] at h
  obtain ⟨h1, h2, h3⟩ := h
  have e1 := congrArg Char.toNat h1
  have e2 := congrArg Char.toNat h2
  have e3 := congrArg Char.toNat h3
  rw [chTok_toNat, chTok_toNat] at e1 e2 e3
  omega

theorem wordsN_sound {w : List Char} {k : Nat} (hw : w ∈ wordsN k) :
    ∃ n, n < k ∧ w = wordN n := by
  rcases List.mem_map.mp hw with ⟨n, hn, rfl⟩
  exact ⟨n, List.mem_range.mp hn, rfl⟩

theorem wordN_chars {c : Char} {n : Nat} (hc : c ∈ wordN n) :
    ∃ d, c = chTok d := by
  simp only [wordN, List.mem_cons, List.not_mem_nil, or_false] at hc
  rcases hc with rfl | rfl | rfl
  · exact ⟨n / 676, rfl⟩
  · exact ⟨n / 26, rfl⟩
  · exact ⟨n, rfl⟩

theorem wordsN_props {k : Nat} :
    ∀ w ∈ wordsN k, w ≠ [] ∧ ∀ c ∈ w, c.isWhitespace = false := by
  intro w hw
  rcases wordsN_sound hw with ⟨n, _, rfl⟩
  refine ⟨by simp [wordN], ?_⟩
  intro c hc
  rcases wordN_chars hc with ⟨d, rfl⟩
  exact chTok_not_ws d

theorem mem_joinW {c : Char} :
    ∀ ws : List (List Char), c ∈ joinW ws → (∃ w ∈ ws, c ∈ w) ∨ c = ' '
  | [] => by simp [joinW]
  | [w] => fun h => Or.inl ⟨w, by simp, by simpa [joinW] using h⟩
  | w :: v :: ws => fun h => by
    rw [joinW] at h
    rcases List.mem_append.mp h with h | h
    · exact Or.inl ⟨w, by simp, h⟩
    · rcases List.mem_cons.mp h with h | h
      · exact Or.inr h
      · rcases mem_joinW (v :: ws) h with ⟨u, hu, hc⟩ | h
        · exact Or.inl ⟨u, List.mem_cons_of_mem _ hu, hc⟩
        · exact Or.inr h

theorem pyLower_joinW_wordsN (k : Nat) :
    pyLower (joinW (wordsN k)) = joinW (wordsN k) := by
  unfold pyLower
  rw [show (joinW (wordsN k)).map Char.toLower = (joinW (wordsN k)).map id from ?_,
    List.map_id]
  apply List.map_congr_left
  intro c hc
  rcases mem_joinW _ hc with ⟨w, hw, hcw⟩ | rfl
  · rcases wordsN_sound hw with ⟨n, _, rfl⟩
    rcases wordN_chars hcw with ⟨d, rfl⟩
    exact chTok_toLower d
  · decide

theorem pySplit_joinW :
    ∀ ws : List (List Char),
      (∀ w ∈ ws, w ≠ [] ∧ ∀ c ∈ w, c.isWhitespace = false) →
      pySplit (joinW ws) = ws
  | [], _ => rfl
  | [w], h => by
    have hw := h w (by simp)
    show pySplitAux w [] = [w]
    rw [show w = w ++ [] from by simp, pySplitAux_word w hw.2 [] []]
    simp only [pySplitAux, List.append_nil]
    rw [if_neg (by simpa using hw.1)]
    simp
  | w :: v :: ws, h => by
    have hw := h w (by simp)
    show pySplitAux (w ++ ' ' :: joinW (v :: ws)) [] = w :: v :: ws
    rw [pySplitAux_word w hw.2 _ [], List.append_nil,
      pySplitAux_ws (by decide) _ w.reverse,
      if_neg (by simpa using hw.1)]
    rw [show pySplitAux (joinW (v :: ws)) [] = pySplit (joinW (v :: ws)) from rfl,
      pySplit_joinW (v :: ws) (fun u hu => h u (List.mem_cons_of_mem _ hu))]
    simp

theorem pySplit_joinW_trailing :
    ∀ ws : List (List Char),
      (∀ w ∈ ws, w ≠ [] ∧ ∀ c ∈ w, c.isWhitespace = false) →
      pySplit (joinW ws ++ [' ']) = ws
  | [], _ => by
    show pySplitAux (' ' :: []) [] = []
    rw [pySplitAux_ws (by decide) _ []]
    simp [pySplitAux]
  | [w], h => by
    have hw := h w (by simp)
    show pySplitAux (w ++ [' ']) [] = [w]
    rw [pySplitAux_word w hw.2 _ [], List.append_nil,
      pySplitAux_ws (by decide) _ w.reverse,
      if_neg (by simpa using hw.1)]
    simp [pySplitAux]
  | w :: v :: ws, h => by
    have hw := h w (by simp)
    show pySplitAux ((w ++ ' ' :: joinW (v :: ws)) ++ [' ']) [] = w :: v :: ws
    rw [List.append_assoc, List.cons_append,
      pySplitAux_word w hw.2 _ [], List.append_nil,
      pySplitAux_ws (by decide) _ w.reverse,
      if_neg (by simpa using hw.1)]
    rw [show pySplitAux (joinW (v :: ws) ++ [' ']) []
        = pySplit (joinW (v :: ws) ++ [' ']) from rfl,
      pySplit_joinW_trailing (v :: ws) (fun u hu => h u (List.mem_cons_of_mem _ hu))]
    simp

theorem wordsN_nodup {k : Nat} (hk : k ≤ 17576) : (wordsN k).Nodup := by
  apply List.Nodup.map_on
  · intro x hx y hy hxy
    exact wordN_inj (lt_of_lt_of_le (List.mem_range.mp hx) hk)
      (lt_of_lt_of_le (List.mem_range.mp hy) hk) hxy
  · exact List.nodup_range k

theorem wordsN_toFinset_card {k : Nat} (hk : k ≤ 17576) :
    (wordsN k).toFinset.card = k := by
  rw [List.card_toFinset, List.dedup_eq_self.mpr (wordsN_nodup hk)]
  simp [wordsN]

theorem wordsN_toFinset_subset :
    (wordsN 201).toFinset ⊆ (wordsN 2009).toFinset := by
  intro a ha
  rcases wordsN_sound (List.mem_toFinset.mp ha) with ⟨n, hn, rfl⟩
  exact List.mem_toFinset.mpr (List.mem_map.mpr ⟨n, List.mem_range.mpr (by omega), rfl⟩)

theorem tokens_cexText : tokens (pyLower cexText) = (wordsN 2009).toFinset := by
  unfold tokens cexText
  rw [pyLower_joinW_wordsN, pyLower_joinW_wordsN,
    pySplit_joinW _ wordsN_props]

theorem tokens_cexCombined :
    tokens (pyLower (cexSerpResult.title ++ ' ' :: cexSerpResult.snippet))
      = (wordsN 201).toFinset := by
  show tokens (pyLower (cexTitle ++ ' ' :: [])) = _
  unfold tokens cexTitle
  have hfix : pyLower (joinW (wordsN 201) ++ [' ']) = joinW (wordsN 201) ++ [' '] := by
    unfold pyLower
    rw [List.map_append,
      show (joinW (wordsN 201)).map Char.toLower = joinW (wordsN 201) from
        pyLower_joinW_wordsN 201]
    rfl
  rw [hfix, hfix, pySplit_joinW_trailing _ wordsN_props]

theorem cex_sim :
    calculate_text_similarity (pyLower cexText)
      (pyLower (cexSerpResult.title ++ ' ' :: cexSerpResult.snippet))
      = 201 / 2009 := by
  simp only [calculate_text_similarity, tokens_cexText, tokens_cexCombined]
  rw [Finset.inter_eq_right.mpr wordsN_toFinset_subset,
    Finset.union_eq_left.mpr wordsN_toFinset_subset,
    wordsN_toFinset_card (by norm_num), wordsN_toFinset_card (by norm_num)]
  rw [if_neg (by norm_num)]
  norm_num

theorem cex_round : pyRound2 ((201 / 2009 : ℚ) * 100) = 10 := by
  rw [pyRound2_eq_round, round_eq]
  rw [show ⌊((201 / 2009 : ℚ) * 100 * 100 + 1 / 2 : ℚ)⌋ = 1000 from ?_]
  · norm_num
  · rw [Int.floor_eq_iff]
    constructor <;> norm_num

theorem cex_serpOne :
    serpOne cexText cexSerpResult
      = some ⟨['u'], some cexTitle, 10, some (cexTitle.take 200)⟩ := by
  simp only [serpOne]
  rw [if_neg (by simp [cexSerpResult]), cex_sim, if_pos (by norm_num), cex_round]
  rfl

theorem round_cutoff {sim : ℚ} (h : 1 / 10 < sim) : 10 ≤ pyRound2 (sim * 100) := by
  rw [pyRound2_eq_round, round_eq]
  have h1 : (1000 : ℤ) ≤ ⌊sim * 100 * 100 + 1 / 2⌋ := by
    rw [Int.le_floor]
    push_cast
    nlinarith
  have h2 : ((1000 : ℤ) : ℚ) ≤ (⌊sim * 100 * 100 + 1 / 2⌋ : ℚ) := by
    exact_mod_cast h1
  linarith

theorem serpOne_similarity {text : List Char} {r : SerpResult} {m : SourceMatch}
    (heq : serpOne text r = some m) : 10 ≤ m.similarity := by
  simp only [serpOne] at heq
  split at heq
  · exact absurd heq (by simp)
  · split at heq
    next hsim =>
      cases heq
      exact round_cutoff hsim
    · exact absurd heq (by simp)

theorem ddgOne_similarity {text : List Char} {r : DDGResult} {m : SourceMatch}
    (heq : ddgOne text r = some m) : 10 ≤ m.similarity := by
  simp only [ddgOne] at heq
  split at heq
  · exact absurd heq (by simp)
  · split at heq
    next hsim =>
      cases heq
      exact round_cutoff hsim
    · exact absurd heq (by simp)

theorem academicOne_similarity {text : List Char} {d : QdrantDoc} {m : SourceMatch}
    (heq : academicOne text d = some m) : 10 ≤ m.similarity := by
  simp only [academicOne] at heq
  split at heq
  next hsim =>
    cases heq
    exact round_cutoff hsim
  · exact absurd heq (by simp)

/-- C9 (amended): every `SourceMatch` returned by the web-source check
(either search branch) or the academic-source check has stored similarity
at least `10`: candidates whose raw Jaccard similarity is at most `0.1`
are silently dropped, and a kept candidate's raw similarity above `0.1`
rounds to a stored percentage `≥ 10`.  The original strict bound `> 10`
fails: rounding can land exactly on `10` (see the counterexample), so an
external signal never contributes a score in `(0, 10)` but can contribute
exactly `10`. -/
theorem C9_external_cutoff (text : List Char) :
    (∀ (results : List SerpResult) (n : Nat),
      ∀ m ∈ check_web_sources_serpapi text results n, 10 ≤ m.similarity)
    ∧ (∀ (results : List DDGResult) (n : Nat),
      ∀ m ∈ check_web_sources_ddg text results n, 10 ≤ m.similarity)
    ∧ (∀ docs : List QdrantDoc,
      ∀ m ∈ check_academic_sources_docs text docs, 10 ≤ m.similarity) := by
  refine ⟨?_, ?_, ?_⟩
  · intro results n m hm
    rcases List.mem_filterMap.mp hm with ⟨r, _, heq⟩
    exact serpOne_similarity heq
  · intro results n m hm
    rcases List.mem_filterMap.mp (List.mem_of_mem_take hm) with ⟨r, _, heq⟩
    exact ddgOne_similarity heq
  · intro docs m hm
    rcases List.mem_filterMap.mp hm with ⟨d, _, heq⟩
    exact academicOne_similarity heq

/-- C9 counterexample: a text of 2009 distinct three-letter lowercase
ASCII tokens (`str.lower()` leaves them unchanged)
against a title carrying 201 of those tokens has raw Jaccard similarity
`201/2009 > 0.1`, so the source is kept, but its stored similarity
`round(201/2009 * 100, 2)` is exactly `10` — this returned `SourceMatch`
does not have similarity strictly greater than `10`, refuting the claim
as stated. -/
theorem C9_external_cutoff_counterexample :
    ((⟨['u'], some cexTitle, 10, some (cexTitle.take 200)⟩ : SourceMatch)
        ∈ check_web_sources_serpapi cexText [cexSerpResult] 5)
    ∧ ¬(10 < (⟨['u'], some cexTitle, 10, some (cexTitle.take 200)⟩ :
        SourceMatch).similarity) := by
  refine ⟨?_, by norm_num⟩
  unfold check_web_sources_serpapi
  rw [show List.take 5 [cexSerpResult] = [cexSerpResult] from rfl,
    List.filterMap_cons, cex_serpOne]
  simp

theorem calculate_of_tokens_eq {x y : List Char} (h : tokens x = tokens y)
    (hne : tokens x ≠ ∅) : calculate_text_similarity x y = 1 := by
  have hcard : (tokens x).card ≠ 0 := by
    simpa [Finset.card_eq_zero] using hne
  simp only [calculate_text_similarity, ← h, Finset.inter_self, Finset.union_self]
  rw [if_neg hcard, div_self (Nat.cast_ne_zero.mpr hcard)]

/-- Witness for C9: a one-token text matching a one-token title is kept by
all three source checks with stored similarity `100 ≥ 10`. -/
theorem C9_external_cutoff_witness :
    ((⟨['u'], some ['a'], pyRound2 (1 * 100), some (List.take 200 ['a'])⟩ : SourceMatch)
        ∈ check_web_sources_serpapi ['a'] [⟨['u'], ['a'], []⟩] 5
      ∧ 10 ≤ (pyRound2 (1 * 100) : ℚ))
    ∧ ((⟨['u'], some ['a'], pyRound2 (1 * 100), some (List.take 200 ['a'])⟩ : SourceMatch)
        ∈ check_web_sources_ddg ['a'] [⟨['u'], ['a']⟩] 5)
    ∧ ((⟨['u'], some ['t'], pyRound2 (1 * 100), some (List.take 200 ['a'])⟩ : SourceMatch)
        ∈ check_academic_sources_docs ['a'] [⟨['a'], ['u'], ['t']⟩]) := by
  have hserp : serpOne ['a'] ⟨['u'], ['a'], []⟩
      = some ⟨['u'], some ['a'], pyRound2 (1 * 100), some (List.take 200 ['a'])⟩ := by
    simp only [serpOne]
    rw [if_neg (by simp),
      calculate_of_tokens_eq (x := pyLower ['a'])
        (y := pyLower (['a'] ++ ' ' :: [])) (by decide) (by decide),
      if_pos (by norm_num)]
    rfl
  have hddg : ddgOne ['a'] ⟨['u'], ['a']⟩
      = some ⟨['u'], some ['a'], pyRound2 (1 * 100), some (List.take 200 ['a'])⟩ := by
    simp only [ddgOne]
    rw [if_neg (by simp),
      calculate_of_tokens_eq (x := pyLower ['a']) (y := pyLower ['a']) rfl (by decide),
      if_pos (by norm_num)]
  have hac : academicOne ['a'] ⟨['a'], ['u'], ['t']⟩
      = some ⟨['u'], some ['t'], pyRound2 (1 * 100), some (List.take 200 ['a'])⟩ := by
    simp only [academicOne]
    rw [calculate_of_tokens_eq (x := pyLower ['a']) (y := pyLower ['a']) rfl (by decide),
      if_pos (by norm_num)]
  have hmem1 : (⟨['u'], some ['a'], pyRound2 (1 * 100), some (List.take 200 ['a'])⟩ :
      SourceMatch) ∈ check_web_sources_serpapi ['a'] [⟨['u'], ['a'], []⟩] 5 := by
    unfold check_web_sources_serpapi
    rw [show List.take 5 [(⟨['u'], ['a'], []⟩ : SerpResult)]
        = [⟨['u'], ['a'], []⟩] from rfl, List.filterMap_cons, hserp]
    simp
  refine ⟨⟨hmem1, (C9_external_cutoff ['a']).1 [⟨['u'], ['a'], []⟩] 5 _ hmem1⟩, ?_, ?_⟩
  · unfold check_web_sources_ddg
    rw [show List.take 5 [(⟨['u'], ['a']⟩ : DDGResult)]
        = [⟨['u'], ['a']⟩] from rfl, List.filterMap_cons, hddg]
    simp
  · unfold check_academic_sources_docs
    rw [List.filterMap_cons, hac]
    simp

theorem pyRound2_idem (x : ℚ) : pyRound2 (pyRound2 x) = pyRound2 x := by
  rw [pyRound2_eq_round x, pyRound2_eq_round,
    div_mul_cancel₀ _ (by norm_num : (100 : ℚ) ≠ 0), round_intCast]

theorem serpOne_shape {text : List Char} {r : SerpResult} {m : SourceMatch}
    (heq : serpOne text r = some m) :
    ∃ s : ℚ, 1 / 10 < s ∧ m.similarity = pyRound2 (s * 100) := by
  simp only [serpOne] at heq
  split at heq
  · exact absurd heq (by simp)
  · split at heq
    next hsim =>
      cases heq
      exact ⟨_, hsim, rfl⟩
    · exact absurd heq (by simp)

theorem ddgOne_shape {text : List Char} {r : DDGResult} {m : SourceMatch}
    (heq : ddgOne text r = some m) :
    ∃ s : ℚ, 1 / 10 < s ∧ m.similarity = pyRound2 (s * 100) := by
  simp only [ddgOne] at heq
  split at heq
  · exact absurd heq (by simp)
  · split at heq
    next hsim =>
      cases heq
      exact ⟨_, hsim, rfl⟩
    · exact absurd heq (by simp)

theorem academicOne_shape {text : List Char} {d : QdrantDoc} {m : SourceMatch}
    (heq : academicOne text d = some m) :
    ∃ s : ℚ, 1 / 10 < s ∧ m.similarity = pyRound2 (s * 100) := by
  simp only [academicOne] at heq
  split at heq
  next hsim =>
    cases heq
    exact ⟨_, hsim, rfl⟩
  · exact absurd heq (by simp)

/-- Every similarity stored by the repository's own source checks is a
fixed point of two-decimal rounding — this discharges, for the actual
lookups, the rounding hypotheses of `C2_score_formula`. -/
theorem sourceMatches_round_fixed (text : List Char) :
    (∀ (results : List SerpResult) (n : Nat),
      ∀ m ∈ check_web_sources_serpapi text results n,
        pyRound2 m.similarity = m.similarity)
    ∧ (∀ (results : List DDGResult) (n : Nat),
      ∀ m ∈ check_web_sources_ddg text results n,
        pyRound2 m.similarity = m.similarity)
    ∧ (∀ docs : List QdrantDoc,
      ∀ m ∈ check_academic_sources_docs text docs,
        pyRound2 m.similarity = m.similarity) := by
  refine ⟨?_, ?_, ?_⟩
  · intro results n m hm
    rcases List.mem_filterMap.mp hm with ⟨r, _, heq⟩
    rcases serpOne_shape heq with ⟨s, _, hsim⟩
    rw [hsim, pyRound2_idem]
  · intro results n m hm
    rcases List.mem_filterMap.mp (List.mem_of_mem_take hm) with ⟨r, _, heq⟩
    rcases ddgOne_shape heq with ⟨s, _, hsim⟩
    rw [hsim, pyRound2_idem]
  · intro docs m hm
    rcases List.mem_filterMap.mp hm with ⟨d, _, heq⟩
    rcases academicOne_shape heq with ⟨s, _, hsim⟩
    rw [hsim, pyRound2_idem]
